import Mathlib

/-!
Shallow embedding of the challenge-selector shell (`App.jsx`) of the
InterviewPrep repository: the static challenge registry, the single piece
of state (`selectedChallenge`), the state setter, the registry lookup by
id and the rendered output of the shell.
-/

/-- A challenge descriptor, one entry of the `challenges` array in
`App.jsx`.  The React component is embedded as an opaque string tag
(the imported component's name), since only its identity matters to the
shell. -/
structure Challenge where
  id : Int
  name : String
  component : String
  time : String
deriving DecidableEq, Repr

/-- The static registry literal `challenges` of `App.jsx`, in source
order. -/
def challenges : List Challenge :=
  [ ⟨1, "User List with Fetch", "Challenge1", "10-15 min"⟩,
    ⟨2, "Search & Filter", "Challenge2", "15-20 min"⟩,
    ⟨3, "Todo List (CRUD)", "Challenge3", "20-25 min"⟩,
    ⟨4, "Form Validation", "Challenge4", "20-25 min"⟩,
    ⟨5, "Custom Hook", "Challenge5", "15-20 min"⟩ ]

/-- The spec's `listAll()`: reading the registry.  The registry is a
module-level constant, so every call returns the same list. -/
def listAll (_u : Unit) : List Challenge := challenges

/-- Initial value of the shell's state: `useState(1)` in `App.jsx`. -/
def initialSelected : Int := 1

/-- `setSelectedChallenge(id)`: the state setter returned by `useState`.
It replaces the current state with `id` unconditionally; the click
handler `() => setSelectedChallenge(challenge.id)` performs no
validation. -/
def setSelectedChallenge (id : Int) (_current : Int) : Int := id

/-- Registry lookup over an arbitrary registry list:
`reg.find(c => c.id === sel)`. -/
def findIn (reg : List Challenge) (sel : Int) : Option Challenge :=
  reg.find? (fun c => c.id == sel)

/-- `challenges.find(c => c.id === selectedChallenge)` from `App.jsx`,
specialised to the shell's registry (the spec's `findById`). -/
def findById (sel : Int) : Option Challenge :=
  findIn challenges sel

/-- `challenges.find(...)?.component`: the component rendered in the main
area, `none` when no registry entry has the selected id (the optional
chaining yields `undefined`, and `{CurrentChallenge && ...}` then renders
nothing). -/
def currentChallenge (sel : Int) : Option String :=
  (findById sel).map (fun c => c.component)

/-- Whether an id occurs in the registry. -/
def isValidId (sel : Int) : Bool :=
  challenges.any (fun c => c.id == sel)

/-- One sidebar button of the rendered shell: challenge id, name, time
and whether it is highlighted (`selectedChallenge === challenge.id`). -/
structure SidebarButton where
  id : Int
  name : String
  time : String
  highlighted : Bool
deriving DecidableEq, Repr

/-- The visible output of `App`'s render for a given state: the header
texts, the sidebar list mapped over the registry, and the optional
challenge body. -/
structure Render where
  headerTitle : String
  headerSub : String
  sidebar : List SidebarButton
  body : Option String
deriving DecidableEq, Repr

/-- The shell's `render()` as a function of the state. -/
def renderApp (sel : Int) : Render :=
  { headerTitle := "React Interview Practice",
    headerSub := "Select a challenge and practice for your 30-minute interview!",
    sidebar := challenges.map
      (fun c => ⟨c.id, c.name, c.time, sel == c.id⟩),
    body := currentChallenge sel }

/-- Running a sequence of selection clicks from a state: each click
applies the setter with that click's id. -/
def runSelections (s : Int) (ids : List Int) : Int :=
  ids.foldl (fun st i => setSelectedChallenge i st) s

/-- C1: for every descriptor in the registry, selecting its id from any
state makes the active descriptor (the registry entry found by the new
`selectedChallenge`) equal that descriptor. -/
theorem select_activates_descriptor (s : Int) (c : Challenge)
    (hc : c ∈ challenges) :
    findById (setSelectedChallenge c.id s) = some c := by
  fin_cases hc <;> rfl

/-- Witness for C1 at state 3 and the descriptor with id 2. -/
theorem select_activates_descriptor_witness :
    findById (setSelectedChallenge
      (⟨2, "Search & Filter", "Challenge2", "15-20 min"⟩ : Challenge).id 3)
      = some ⟨2, "Search & Filter", "Challenge2", "15-20 min"⟩ :=
  select_activates_descriptor 3 _ (by decide)

/-- C2: from the initial state, any sequence of selections whose ids are
all in the registry leaves `selectedChallenge` equal to some registry id. -/
theorem reachable_state_valid (ids : List Int)
    (h : ∀ i ∈ ids, isValidId i = true) :
    isValidId (runSelections initialSelected ids) = true := by
  have step : ∀ (l : List Int) (s : Int), isValidId s = true →
      (∀ i ∈ l, isValidId i = true) → isValidId (runSelections s l) = true := by
    intro l
    induction l with
    | nil => intro s hs _; exact hs
    | cons i t ih =>
        intro s _ hl
        exact ih i (hl i (List.mem_cons_self i t))
          (fun j hj => hl j (List.mem_cons_of_mem i hj))
  exact step ids initialSelected (by decide) h

/-- Witness for C2 on the click sequence [2, 5, 3]. -/
theorem reachable_state_valid_witness :
    isValidId (runSelections initialSelected [2, 5, 3]) = true :=
  reachable_state_valid [2, 5, 3] (by decide)

/-- C3: the initial `selectedChallenge` is the id of the registry's first
descriptor, and the initially active descriptor is that first entry. -/
theorem initial_selects_first :
    (challenges.head?).map (fun c => c.id) = some initialSelected ∧
      findById initialSelected = challenges.head? := by
  constructor <;> rfl

/-- C4: selecting the currently-selected registry id changes neither the
state nor the rendered output. -/
theorem select_idempotent (id : Int) (_h : isValidId id = true) :
    setSelectedChallenge id id = id ∧
      renderApp (setSelectedChallenge id id) = renderApp id :=
  ⟨rfl, rfl⟩

/-- Witness for C4 at id 1. -/
theorem select_idempotent_witness :
    setSelectedChallenge 1 1 = 1 ∧
      renderApp (setSelectedChallenge 1 1) = renderApp 1 :=
  select_idempotent 1 (by decide)

/-- C5: the registry lookup returns a registry descriptor whose id is the
one sought whenever it returns something, and returns `none` exactly when
no registry descriptor has that id. -/
theorem find_by_id_spec (sel : Int) :
    (∀ c, findById sel = some c → c ∈ challenges ∧ c.id = sel) ∧
      (findById sel = none ↔ ∀ c ∈ challenges, c.id ≠ sel) := by
  constructor
  · intro c hc
    rw [findById, findIn] at hc
    refine ⟨List.mem_of_find?_eq_some hc, ?_⟩
    have := List.find?_some hc
    simpa using this
  · rw [findById, findIn, List.find?_eq_none]
    constructor
    · intro h c hc
      have := h c hc
      simpa using this
    · intro h c hc
      simpa using h c hc

/-- Witness for C5: the lookup at id 2 returns the id-2 descriptor, and
at id 99 returns `none`. -/
theorem find_by_id_spec_witness :
    ((⟨2, "Search & Filter", "Challenge2", "15-20 min"⟩ : Challenge)
        ∈ challenges ∧
      (⟨2, "Search & Filter", "Challenge2", "15-20 min"⟩ : Challenge).id
        = 2) ∧
      findById 99 = none :=
  ⟨(find_by_id_spec 2).1 _ (by decide),
    (find_by_id_spec 99).2.mpr (by decide)⟩

/-- C6: the registry's id values are pairwise distinct. -/
theorem registry_ids_nodup : (challenges.map (fun c => c.id)).Nodup := by
  decide

/-- C7: listing the registry yields a non-empty sequence in fixed
insertion order (ids 1..5 in source order), identical on every call. -/
theorem list_all_stable :
    listAll () = challenges ∧
      listAll () ≠ [] ∧
      (listAll ()).map (fun c => c.id) = [1, 2, 3, 4, 5] ∧
      ∀ u v : Unit, listAll u = listAll v :=
  ⟨rfl, by decide, by decide, fun _ _ => rfl⟩

/-- C8: in any registry whose first two descriptors are id 1 named
"User List" and id 2 named "Search & Filter", selecting id 2 from the
initial selection 1 makes the active descriptor's name "Search & Filter". -/
theorem scenario_select_second (c₁ c₂ : Challenge) (rest : List Challenge)
    (h1 : c₁.id = 1) (_h1n : c₁.name = "User List")
    (h2 : c₂.id = 2) (h2n : c₂.name = "Search & Filter") :
    (findIn (c₁ :: c₂ :: rest)
        (setSelectedChallenge 2 initialSelected)).map (fun c => c.name)
      = some "Search & Filter" := by
  simp [findIn, setSelectedChallenge, List.find?, h1, h2, h2n]

/-- Witness for C8 on the two-descriptor registry of the scenario. -/
theorem scenario_select_second_witness :
    (findIn [⟨1, "User List", "Challenge1", "10-15 min"⟩,
             ⟨2, "Search & Filter", "Challenge2", "15-20 min"⟩]
        (setSelectedChallenge 2 initialSelected)).map (fun c => c.name)
      = some "Search & Filter" :=
  scenario_select_second ⟨1, "User List", "Challenge1", "10-15 min"⟩
    ⟨2, "Search & Filter", "Challenge2", "15-20 min"⟩ [] rfl rfl rfl rfl

/-- C9: for any `selectedChallenge`, also one matching no registry id,
the render is total: the lookup yields `none` and the shell still shows
the header and the full sidebar, with no challenge body. -/
theorem render_total_on_invalid (sel : Int) (h : isValidId sel = false) :
    findById sel = none ∧
      renderApp sel =
        { headerTitle := "React Interview Practice",
          headerSub :=
            "Select a challenge and practice for your 30-minute interview!",
          sidebar := challenges.map
            (fun c => ⟨c.id, c.name, c.time, sel == c.id⟩),
          body := none } := by
  have hnone : findById sel = none := by
    rw [findById, findIn, List.find?_eq_none]
    intro c hc hpc
    have hne : ¬((challenges.any fun c => c.id == sel) = true) := by
      rw [isValidId] at h
      simp [h]
    exact hne (List.any_eq_true.mpr ⟨c, hc, hpc⟩)
  exact ⟨hnone, by simp [renderApp, currentChallenge, hnone]⟩

/-- Witness for C9 at the out-of-registry id 99. -/
theorem render_total_on_invalid_witness :
    findById 99 = none ∧
      renderApp 99 =
        { headerTitle := "React Interview Practice",
          headerSub :=
            "Select a challenge and practice for your 30-minute interview!",
          sidebar := challenges.map
            (fun c => ⟨c.id, c.name, c.time, (99 : Int) == c.id⟩),
          body := none } :=
  render_total_on_invalid 99 (by decide)

/-- C10: the setter validates nothing: for every integer id, from every
state, it succeeds and sets the state to exactly that id. -/
theorem select_no_validation (id s : Int) :
    setSelectedChallenge id s = id := rfl
